import Mathlib

/-!
Shallow embedding of `tools/device_flags.py` (class `DeviceFlags`): resolution
of aconfig / device_config flag values on a device.

The device is modelled by two oracles:
* `pullParse : String → Except PyError (List ParsedFlag)` — for a partition
  name, the combined effect of `adb.pull` of
  `/{partition}/etc/aconfig_flags.textproto` followed by
  `text_format.Parse`: either a raised transport/parse error or the list of
  `parsed_flag` records of that partition's document.
* `shell : String → String → String` — the raw decoded output of
  `adb.shell('device_config get <namespace> <name>')` before `.strip()`.

Python exceptions are modelled with `Except`; the mutable field
`self._aconfig_flags` is modelled by explicit state passing of `DeviceFlags`.
Instrumentation that the claims need is returned alongside the results:
the number of `adb.shell` calls made by a `get_value` body, the number of
`_load_aconfig_flags` invocations, and the event trace of the temporary
directory acquired by `_load_aconfig_flags`.
-/

/-- Modelled from the spec: the proto module `protos/aconfig_pb2` is not part
of `src/`; §3 of the spec defines `FlagState` as the enum
`{ENABLED, DISABLED}`. -/
inductive FlagState where
  | ENABLED
  | DISABLED
  deriving DecidableEq, Repr

/-- Modelled from the spec: the proto module `protos/aconfig_pb2` is not part
of `src/`; §3 of the spec defines `FlagPermission` as the enum
`{READ_ONLY, READ_WRITE}`. -/
inductive FlagPermission where
  | READ_ONLY
  | READ_WRITE
  deriving DecidableEq, Repr

/-- Modelled from the spec: a `parsed_flag` record of a partition document,
with the five fields the resolution logic reads (`namespace`, `package`,
`name`, `state`, `permission`); `namespace` is a Lean keyword, so the field
is called `nspace`. -/
structure ParsedFlag where
  nspace : String
  package : String
  name : String
  state : FlagState
  permission : FlagPermission
  deriving DecidableEq, Repr

/-- Python exceptions raised by the code: `adb` transport failures,
`text_format.ParseError`, the `ValueError` of `get_bool`, and the
`AttributeError` raised by an attribute access on `None`. -/
inductive PyError where
  | transportError (msg : String)
  | parseError (msg : String)
  | valueError (msg : String)
  | attributeError (msg : String)
  deriving DecidableEq, Repr

/-- Python's `str.lower()` on ASCII data: lower-case every character.
Implemented over the character list so that it evaluates by kernel
reduction. -/
def pyLower (s : String) : String :=
  String.mk (s.toList.map Char.toLower)

/-- Python's `str.strip()` with no argument: remove whitespace from both
ends. Implemented over the character list so that it evaluates by kernel
reduction. -/
def pyStrip (s : String) : String :=
  String.mk
    (((s.toList.dropWhile Char.isWhitespace).reverse.dropWhile
      Char.isWhitespace).reverse)

/-- `'%s/%s.%s' % (flag.namespace, flag.package, flag.name)`
(`_load_aconfig_flags`, line 122). -/
def full_name (flag : ParsedFlag) : String :=
  flag.nspace ++ "/" ++ flag.package ++ "." ++ flag.name

/-- The Python `dict` built by `_load_aconfig_flags`, modelled as the list of
`self._aconfig_flags[full_name] = flag` assignments in execution order. -/
abbrev FlagDict : Type := List (String × ParsedFlag)

/-- `dict.get(key)`: the value of the latest assignment to `key`, or `None`.
Later assignments overwrite earlier ones, hence the search runs over the
reversed assignment list. -/
def dictGet (d : FlagDict) (k : String) : Option ParsedFlag :=
  (d.reverse.find? (fun p => p.1 == k)).map (fun p => p.2)

/-- `_ACONFIG_PARTITIONS = ('product', 'system', 'system_ext', 'vendor')`
(line 27). -/
def _ACONFIG_PARTITIONS : List String :=
  ["product", "system", "system_ext", "vendor"]

/-- Body of `get_value` (lines 64–77) given the loaded aconfig index
`flags = self._get_aconfig_flags()` and the shell oracle. Returns the value
(`none` is Python's `None`) together with the number of `adb.shell` calls
performed. -/
def get_value_with_flags (flags : String → Option ParsedFlag)
    (shell : String → String → String) (nspace name : String) :
    Option String × Nat :=
  -- Check aconfig
  let aconfig_flag := flags (nspace ++ "/" ++ name)
  match aconfig_flag with
  | some flag =>
    let aconfig_val := if flag.state = FlagState.ENABLED then "true" else "false"
    if flag.permission = FlagPermission.READ_ONLY then
      (some aconfig_val, 0)
    else
      -- If READ_WRITE, also check device_config
      let device_config_val := pyStrip (shell nspace name)
      (if device_config_val ≠ "null" then some device_config_val
       else some aconfig_val, 1)
  | none =>
    -- If missing, also check device_config; aconfig_val stayed None
    let device_config_val := pyStrip (shell nspace name)
    (if device_config_val ≠ "null" then some device_config_val
     else none, 1)

/-- Body of `get_bool` (lines 94–100) given the loaded aconfig index: calls
the `get_value` body, then `val.lower()`. When `val` is `None`, the attribute
access `val.lower` raises `AttributeError` before any comparison. -/
def get_bool_with_flags (flags : String → Option ParsedFlag)
    (shell : String → String → String) (nspace name : String) :
    Except PyError Bool × Nat :=
  let (val, n) := get_value_with_flags flags shell nspace name
  match val with
  | none =>
    (Except.error (PyError.attributeError
      "NoneType object has no attribute lower"), n)
  | some v =>
    if pyLower v = "true" then (Except.ok true, n)
    else if pyLower v = "false" then (Except.ok false, n)
    else
      (Except.error (PyError.valueError
        ("Flag " ++ nspace ++ "/" ++ name ++ " is not a boolean (value: "
          ++ v ++ ").")), n)

/-- Events of the temporary-directory lifecycle during `_load_aconfig_flags`:
acquisition by `tempfile.TemporaryDirectory()`, the per-partition pull+parse,
and the directory's cleanup. -/
inductive Event where
  | acquireTmpDir
  | pullPartition (p : String)
  | releaseTmpDir
  deriving DecidableEq, Repr

/-- The `for partition in _ACONFIG_PARTITIONS` loop of `_load_aconfig_flags`
(lines 112–124): pull and parse each partition's document in order, inserting
every record under its full name; a raised error stops the loop there.
Returns the raised error (if any), the dict assignments made so far, and the
pull events attempted. -/
def _load_aconfig_flags_loop
    (pullParse : String → Except PyError (List ParsedFlag)) :
    List String → FlagDict → List Event →
      Option PyError × FlagDict × List Event
  | [], acc, tr => (none, acc, tr)
  | p :: ps, acc, tr =>
    match pullParse p with
    | Except.error e => (some e, acc, tr ++ [Event.pullPartition p])
    | Except.ok doc =>
      _load_aconfig_flags_loop pullParse ps
        (acc ++ doc.map (fun flag => (full_name flag, flag)))
        (tr ++ [Event.pullPartition p])

/-- `_load_aconfig_flags` (lines 108–124). `self._aconfig_flags = {}` runs
first; the partition loop then runs inside
`with tempfile.TemporaryDirectory() as tmp_dir:`, whose semantics acquire the
directory on entry and release it when the block exits, whether normally or
through a raised exception — the returned trace records that bracket. The
returned `FlagDict` is the final value of the `self._aconfig_flags` field: on
a raised error it holds exactly the assignments made before the failure. -/
def _load_aconfig_flags
    (pullParse : String → Except PyError (List ParsedFlag)) :
    Option PyError × FlagDict × List Event :=
  let r := _load_aconfig_flags_loop pullParse _ACONFIG_PARTITIONS [] []
  (r.1, r.2.1, Event.acquireTmpDir :: r.2.2 ++ [Event.releaseTmpDir])

/-- The mutable state of a `DeviceFlags` instance: the field
`self._aconfig_flags`, `None` until `_load_aconfig_flags` runs
(`__init__`, line 40). -/
structure DeviceFlags where
  aconfig_flags : Option FlagDict
  deriving DecidableEq, Repr

/-- `_get_aconfig_flags` (lines 102–106): run `_load_aconfig_flags` if the
cached field is `None`, then return the field. The `Nat` counts
`_load_aconfig_flags` invocations made by this call; a raised load error
propagates, and the field keeps whatever the failed load left in it. -/
def _get_aconfig_flags (pullParse : String → Except PyError (List ParsedFlag))
    (s : DeviceFlags) : Except PyError FlagDict × DeviceFlags × Nat :=
  match s.aconfig_flags with
  | none =>
    let (err, d, _) := _load_aconfig_flags pullParse
    match err with
    | some e => (Except.error e, ⟨some d⟩, 1)
    | none => (Except.ok d, ⟨some d⟩, 1)
  | some d => (Except.ok d, s, 0)

/-- The full `get_value` method (lines 42–77) as a state transformer on
`DeviceFlags`: the result (a raised load error propagates), the new state,
the number of `_load_aconfig_flags` invocations, and the number of
`adb.shell` calls. -/
def get_value (pullParse : String → Except PyError (List ParsedFlag))
    (shell : String → String → String) (s : DeviceFlags)
    (nspace name : String) :
    Except PyError (Option String) × DeviceFlags × Nat × Nat :=
  match _get_aconfig_flags pullParse s with
  | (Except.error e, s2, n) => (Except.error e, s2, n, 0)
  | (Except.ok d, s2, n) =>
    let r := get_value_with_flags (dictGet d) shell nspace name
    (Except.ok r.1, s2, n, r.2)

/-- The full `get_bool` method (lines 79–100) as a state transformer on
`DeviceFlags`, with the same instrumentation as `get_value`. -/
def get_bool (pullParse : String → Except PyError (List ParsedFlag))
    (shell : String → String → String) (s : DeviceFlags)
    (nspace name : String) :
    Except PyError Bool × DeviceFlags × Nat × Nat :=
  match _get_aconfig_flags pullParse s with
  | (Except.error e, s2, n) => (Except.error e, s2, n, 0)
  | (Except.ok d, s2, n) =>
    let r := get_bool_with_flags (dictGet d) shell nspace name
    (r.1, s2, n, r.2)

/-- A sequence of `get_value` calls on one `DeviceFlags` instance, threading
the state; returns the final state and the total number of
`_load_aconfig_flags` invocations across the sequence. -/
def runQueries (pullParse : String → Except PyError (List ParsedFlag))
    (shell : String → String → String) :
    DeviceFlags → List (String × String) → DeviceFlags × Nat
  | s, [] => (s, 0)
  | s, q :: qs =>
    let r := get_value pullParse shell s q.1 q.2
    let rest := runQueries pullParse shell r.2.1 qs
    (rest.1, r.2.2.1 + rest.2)

/-! ### Concrete fixtures used by witnesses and counterexamples -/

/-- An aconfig index with no entry for any key. -/
def emptyFlags : String → Option ParsedFlag := fun _ => none

/-- A `parsed_flag` record: `ENABLED`, `READ_ONLY`. -/
def enabledROFlag : ParsedFlag :=
  ⟨"sample", "pkg", "flag", FlagState.ENABLED, FlagPermission.READ_ONLY⟩

/-- A `parsed_flag` record with the same full name as `enabledROFlag` but
state `DISABLED`. -/
def disabledROFlag : ParsedFlag :=
  ⟨"sample", "pkg", "flag", FlagState.DISABLED, FlagPermission.READ_ONLY⟩

/-- A `parsed_flag` record: `ENABLED`, `READ_WRITE`. -/
def enabledRWFlag : ParsedFlag :=
  ⟨"sample", "pkg", "flag", FlagState.ENABLED, FlagPermission.READ_WRITE⟩

/-- An aconfig index with a single `READ_ONLY`/`ENABLED` entry at
`sample/flag`. -/
def roFlags : String → Option ParsedFlag :=
  fun k => if k = "sample/flag" then some enabledROFlag else none

/-- An aconfig index with a single `READ_WRITE`/`ENABLED` entry at
`sample/flag`. -/
def rwFlags : String → Option ParsedFlag :=
  fun k => if k = "sample/flag" then some enabledRWFlag else none

/-- A shell oracle whose `device_config get` always answers `null`. -/
def shellNull : String → String → String := fun _ _ => "null"

/-- A shell oracle whose `device_config get` always answers `foo`. -/
def shellFoo : String → String → String := fun _ _ => "foo"

/-- A shell oracle whose `device_config get` always answers `TRUE`. -/
def shellTRUE : String → String → String := fun _ _ => "TRUE"

/-- A shell oracle whose `device_config get` answers only whitespace. -/
def shellBlank : String → String → String := fun _ _ => "  "

/-- A device on which every partition document parses to zero records. -/
def pullParseEmpty : String → Except PyError (List ParsedFlag) :=
  fun _ => Except.ok []

/-- A device on which the `product` document yields one record and every
later partition fails to pull. -/
def pullParseFail : String → Except PyError (List ParsedFlag) :=
  fun p => if p = "product" then Except.ok [enabledROFlag]
           else Except.error (PyError.transportError "adb pull failed")

/-- A device whose `product` and `vendor` documents define the same full
name with different states. -/
def ppLWW : String → Except PyError (List ParsedFlag) :=
  fun p => if p = "product" then Except.ok [disabledROFlag]
           else if p = "vendor" then Except.ok [enabledROFlag]
           else Except.ok []

/-- A session whose snapshot index is already loaded with the single
`READ_ONLY` entry `sample/flag`. -/
def sessionRO : DeviceFlags := ⟨some [("sample/flag", enabledROFlag)]⟩

/-! ### Helper lemmas -/

/-- A `READ_ONLY` snapshot entry is returned directly, with zero
`adb.shell` calls. -/
theorem get_value_with_flags_read_only (flags : String → Option ParsedFlag)
    (shell : String → String → String) (nspace name : String)
    (flag : ParsedFlag) (hf : flags (nspace ++ "/" ++ name) = some flag)
    (hp : flag.permission = FlagPermission.READ_ONLY) :
    get_value_with_flags flags shell nspace name =
      (some (if flag.state = FlagState.ENABLED then "true" else "false"), 0) := by
  simp [get_value_with_flags, hf, hp]

/-- On an already-loaded session, `get_value` performs no load, leaves the
state unchanged, and answers from the cached index. -/
theorem get_value_loaded (pullParse : String → Except PyError (List ParsedFlag))
    (shell : String → String → String) (d : FlagDict) (nspace name : String) :
    get_value pullParse shell ⟨some d⟩ nspace name =
      (Except.ok (get_value_with_flags (dictGet d) shell nspace name).1,
        ⟨some d⟩, 0, (get_value_with_flags (dictGet d) shell nspace name).2) :=
  rfl

/-- On a fresh session, `get_value` runs the load exactly once and leaves a
populated (non-`None`) cache, whether or not the load raised. -/
theorem get_value_fresh (pullParse : String → Except PyError (List ParsedFlag))
    (shell : String → String → String) (nspace name : String) :
    ∃ d, (get_value pullParse shell ⟨none⟩ nspace name).2.1 =
        DeviceFlags.mk (some d) ∧
      (get_value pullParse shell ⟨none⟩ nspace name).2.2.1 = 1 := by
  unfold get_value _get_aconfig_flags
  rcases _load_aconfig_flags pullParse with ⟨err, d, tr⟩
  cases err <;> exact ⟨d, rfl, rfl⟩

example : get_value pullParseEmpty shellFoo ⟨none⟩ "sample" "flag"
    = (Except.ok (some "foo"), ⟨some []⟩, 1, 1) := rfl

example : (get_value pullParseFail shellNull ⟨none⟩ "sample" "pkg.flag").2.1
    = ⟨some [("sample/pkg.flag", enabledROFlag)]⟩ := by decide

/-! ### Claims -/

/-- C1: for every session state whose loaded snapshot index maps
`namespace/name` to an entry with permission `READ_ONLY`, `get_value`
returns `"true"` if the entry's state is `ENABLED` and `"false"` otherwise,
and the live override client (`adb.shell` running `device_config get`) is
not invoked during that call. -/
theorem C1_read_only_uses_snapshot_only
    (pullParse : String → Except PyError (List ParsedFlag))
    (shell : String → String → String) (s : DeviceFlags)
    (nspace name : String) (d : FlagDict) (flag : ParsedFlag)
    (hd : (_get_aconfig_flags pullParse s).1 = Except.ok d)
    (hf : dictGet d (nspace ++ "/" ++ name) = some flag)
    (hp : flag.permission = FlagPermission.READ_ONLY) :
    (get_value pullParse shell s nspace name).1 =
      Except.ok
        (some (if flag.state = FlagState.ENABLED then "true" else "false")) ∧
    (get_value pullParse shell s nspace name).2.2.2 = 0 := by
  have h :=
    get_value_with_flags_read_only (dictGet d) shell nspace name flag hf hp
  rcases hg : _get_aconfig_flags pullParse s with ⟨res, s2, n⟩
  rw [hg] at hd
  simp only at hd
  subst hd
  simp [get_value, hg, h]

/-- Witness for C1 at a concrete loaded session. -/
theorem C1_witness :
    (get_value pullParseEmpty shellFoo sessionRO "sample" "flag").1 =
      Except.ok (some "true") ∧
    (get_value pullParseEmpty shellFoo sessionRO "sample" "flag").2.2.2 = 0 := by
  have h := C1_read_only_uses_snapshot_only pullParseEmpty shellFoo sessionRO
    "sample" "flag" [("sample/flag", enabledROFlag)] enabledROFlag rfl
    (by decide) rfl
  simpa [enabledROFlag] using h

/-- C2: for every snapshot entry at `namespace/name` with permission
`READ_WRITE`, the `get_value` body returns the stripped live override value
verbatim when it differs from `"null"`, and the snapshot-derived
`"true"`/`"false"` (`ENABLED` ↦ `"true"`, `DISABLED` ↦ `"false"`) when the
stripped live value equals `"null"`; in both cases the live client is
queried once. -/
theorem C2_read_write_live_then_snapshot
    (flags : String → Option ParsedFlag) (shell : String → String → String)
    (nspace name : String) (flag : ParsedFlag)
    (hf : flags (nspace ++ "/" ++ name) = some flag)
    (hp : flag.permission = FlagPermission.READ_WRITE) :
    (pyStrip (shell nspace name) ≠ "null" →
      get_value_with_flags flags shell nspace name =
        (some (pyStrip (shell nspace name)), 1)) ∧
    (pyStrip (shell nspace name) = "null" →
      get_value_with_flags flags shell nspace name =
        (some (if flag.state = FlagState.ENABLED then "true" else "false"),
          1)) := by
  have hp2 : flag.permission ≠ FlagPermission.READ_ONLY := by
    rw [hp]; decide
  constructor <;> intro h <;> simp [get_value_with_flags, hf, hp2, h]

/-- Witness for C2: a `READ_WRITE`/`ENABLED` entry, live value `foo`. -/
theorem C2_witness :
    get_value_with_flags rwFlags shellFoo "sample" "flag" = (some "foo", 1) := by
  have h := (C2_read_write_live_then_snapshot rwFlags shellFoo "sample" "flag"
    enabledRWFlag (by decide) rfl).1 (by decide)
  exact h.trans (by decide)

/-- C3: for every `namespace/name` with no snapshot entry, the `get_value`
body returns exactly the stripped live value when it differs from `"null"`,
and `None` when the stripped live value equals `"null"`; the live client is
queried once. -/
theorem C3_missing_entry_uses_live
    (flags : String → Option ParsedFlag) (shell : String → String → String)
    (nspace name : String)
    (hf : flags (nspace ++ "/" ++ name) = none) :
    (pyStrip (shell nspace name) ≠ "null" →
      get_value_with_flags flags shell nspace name =
        (some (pyStrip (shell nspace name)), 1)) ∧
    (pyStrip (shell nspace name) = "null" →
      get_value_with_flags flags shell nspace name = (none, 1)) := by
  constructor <;> intro h <;> simp [get_value_with_flags, hf, h]

/-- Witness for C3: the spec's concrete scenario — no snapshot entry, live
value `foo` resolves to `foo`. -/
theorem C3_witness :
    get_value_with_flags emptyFlags shellFoo "sample" "flag" =
      (some "foo", 1) := by
  have h := (C3_missing_entry_uses_live emptyFlags shellFoo "sample" "flag"
    rfl).1 (by decide)
  exact h.trans (by decide)

/-- C10: the `get_value` body never returns the literal string `"null"`,
for every index, shell oracle and flag key; and an empty live response
(after stripping) for a key without snapshot entry is a present override,
returned verbatim as the empty string. -/
theorem C10_never_literal_null
    (flags : String → Option ParsedFlag) (shell : String → String → String)
    (nspace name : String) :
    (get_value_with_flags flags shell nspace name).1 ≠ some "null" ∧
    (flags (nspace ++ "/" ++ name) = none → pyStrip (shell nspace name) = "" →
      get_value_with_flags flags shell nspace name = (some "", 1)) := by
  constructor
  · unfold get_value_with_flags
    cases hf : flags (nspace ++ "/" ++ name) with
    | none =>
      by_cases hn : pyStrip (shell nspace name) = "null" <;> simp [hn]
    | some flag =>
      by_cases hp : flag.permission = FlagPermission.READ_ONLY
      · cases hs : flag.state <;> simp [hp, hs]
      · by_cases hn : pyStrip (shell nspace name) = "null" <;>
          cases hs : flag.state <;> simp [hp, hn, hs]
  · intro h1 h2
    simp [get_value_with_flags, h1, h2]

/-- Witness for C10: whitespace-only live response, no snapshot entry. -/
theorem C10_witness :
    (get_value_with_flags emptyFlags shellBlank "sample" "flag").1 ≠
      some "null" ∧
    get_value_with_flags emptyFlags shellBlank "sample" "flag" =
      (some "", 1) :=
  ⟨(C10_never_literal_null emptyFlags shellBlank "sample" "flag").1,
   (C10_never_literal_null emptyFlags shellBlank "sample" "flag").2 rfl
     (by decide)⟩

/-- C4 (code bug): when `get_value` resolves to `None` (no snapshot entry
and live value `null`), `get_bool` does not raise the documented
`ValueError` naming the flag: the attribute access `val.lower` on `None`
raises `AttributeError` first. Evaluated on a fresh session over a device
whose partitions hold no records and whose live store answers `null`. -/
theorem C4_absent_raises_attribute_error :
    (get_bool pullParseEmpty shellNull ⟨none⟩ "sample" "flag").1 =
      Except.error (PyError.attributeError
        "NoneType object has no attribute lower") ∧
    ∀ msg : String,
      (get_bool pullParseEmpty shellNull ⟨none⟩ "sample" "flag").1 ≠
        Except.error (PyError.valueError msg) := by
  refine ⟨rfl, fun msg h => ?_⟩
  have e : (get_bool pullParseEmpty shellNull ⟨none⟩ "sample" "flag").1 =
      Except.error (PyError.attributeError
        "NoneType object has no attribute lower") := rfl
  rw [e] at h
  exact PyError.noConfusion (Except.error.inj h)

/-- C5 (counterexample): the snapshot load is not atomic. On a device where
`product` pulls fine and `system` fails, the raised error propagates out of
`get_value`, yet the session is left with the `product` records in its
index (its state differs from the fresh `None` state), and a second
`get_value` call on the same session answers from that partial index. -/
theorem C5_counterexample :
    (get_value pullParseFail shellNull ⟨none⟩ "sample" "pkg.flag").1 =
      Except.error (PyError.transportError "adb pull failed") ∧
    (get_value pullParseFail shellNull ⟨none⟩ "sample" "pkg.flag").2.1 ≠
      DeviceFlags.mk none ∧
    (get_value pullParseFail shellNull
        ((get_value pullParseFail shellNull ⟨none⟩ "sample" "pkg.flag").2.1)
        "sample" "pkg.flag").1 = Except.ok (some "true") :=
  ⟨rfl, by decide, rfl⟩

/-- When every partition in `done` pulls and parses fine and the next
partition `p` fails, the partition loop stops at `p` with its raised error,
keeping exactly the assignments made for the processed partitions. -/
theorem loop_prefix_fail
    (pullParse : String → Except PyError (List ParsedFlag))
    (docs : String → List ParsedFlag) (p : String) (e : PyError)
    (rest : List String) (hfail : pullParse p = Except.error e) :
    ∀ (done : List String) (acc : FlagDict) (tr : List Event),
      (∀ q ∈ done, pullParse q = Except.ok (docs q)) →
      (_load_aconfig_flags_loop pullParse (done ++ p :: rest) acc tr).1 =
        some e ∧
      (_load_aconfig_flags_loop pullParse (done ++ p :: rest) acc tr).2.1 =
        acc ++ (done.flatMap docs).map
          (fun flag => (full_name flag, flag)) := by
  intro done
  induction done with
  | nil =>
    intro acc tr _
    simp [_load_aconfig_flags_loop, hfail]
  | cons q done ih =>
    intro acc tr hdone
    have hq : pullParse q = Except.ok (docs q) :=
      hdone q (List.mem_cons_self q done)
    have ih2 := ih
      (acc ++ (docs q).map (fun flag => (full_name flag, flag)))
      (tr ++ [Event.pullPartition q])
      (fun r hr => hdone r (List.mem_cons_of_mem q hr))
    have hstep : _load_aconfig_flags_loop pullParse
        ((q :: done) ++ p :: rest) acc tr =
        _load_aconfig_flags_loop pullParse (done ++ p :: rest)
          (acc ++ (docs q).map (fun flag => (full_name flag, flag)))
          (tr ++ [Event.pullPartition q]) := by
      simp [_load_aconfig_flags_loop, hq]
    rw [hstep]
    refine ⟨ih2.1, ?_⟩
    rw [ih2.2]
    simp [List.flatMap_cons, List.map_append, List.append_assoc]

/-- C5 (amended): if pulling or parsing any partition's document fails, the
error propagates and aborts the in-progress load, but the index field —
assigned `{}` at the start of `_load_aconfig_flags` and filled in place —
retains exactly the records of the partitions processed before the failing
one; being non-`None`, it is reused by every later call of the session
without retrying the load. `done` is the (possibly empty) prefix of
partitions before the failing partition `p`, so this covers a failure at
any of the four partitions. -/
theorem C5_partial_index_retained
    (pullParse : String → Except PyError (List ParsedFlag))
    (shell : String → String → String) (docs : String → List ParsedFlag)
    (done rest : List String) (p : String) (e : PyError)
    (nspace name : String)
    (hsplit : _ACONFIG_PARTITIONS = done ++ p :: rest)
    (hdone : ∀ q ∈ done, pullParse q = Except.ok (docs q))
    (hfail : pullParse p = Except.error e) :
    (get_value pullParse shell ⟨none⟩ nspace name).1 = Except.error e ∧
    (get_value pullParse shell ⟨none⟩ nspace name).2.1 =
      DeviceFlags.mk (some ((done.flatMap docs).map
        (fun flag => (full_name flag, flag)))) ∧
    ∀ nspace2 name2,
      (get_value pullParse shell
        ((get_value pullParse shell ⟨none⟩ nspace name).2.1)
        nspace2 name2).2.2.1 = 0 := by
  have hloop :=
    loop_prefix_fail pullParse docs p e rest hfail done [] [] hdone
  have h1 : (_load_aconfig_flags pullParse).1 = some e := by
    show (_load_aconfig_flags_loop pullParse _ACONFIG_PARTITIONS [] []).1 =
      some e
    rw [hsplit]
    exact hloop.1
  have h2 : (_load_aconfig_flags pullParse).2.1 =
      (done.flatMap docs).map (fun flag => (full_name flag, flag)) := by
    show (_load_aconfig_flags_loop pullParse _ACONFIG_PARTITIONS [] []).2.1 =
      (done.flatMap docs).map (fun flag => (full_name flag, flag))
    rw [hsplit, hloop.2]
    exact List.nil_append _
  rcases hl : _load_aconfig_flags pullParse with ⟨err, d, tr⟩
  rw [hl] at h1 h2
  simp only at h1 h2
  subst h1
  subst h2
  have hget : _get_aconfig_flags pullParse ⟨none⟩ =
      (Except.error e,
        ⟨some ((done.flatMap docs).map
          (fun flag => (full_name flag, flag)))⟩, 1) := by
    simp [_get_aconfig_flags, hl]
  refine ⟨?_, ?_, ?_⟩
  · simp [get_value, hget]
  · simp [get_value, hget]
  · intro nspace2 name2
    have hst : (get_value pullParse shell ⟨none⟩ nspace name).2.1 =
        ⟨some ((done.flatMap docs).map
          (fun flag => (full_name flag, flag)))⟩ := by
      simp [get_value, hget]
    rw [hst]
    rfl

/-- The partition documents of the `pullParseFail` device: one record on
`product`, nothing elsewhere. -/
def docsFail : String → List ParsedFlag :=
  fun q => if q = "product" then [enabledROFlag] else []

/-- Witness for the amended C5 at a concrete device failing at `system`. -/
theorem C5_witness :
    (get_value pullParseFail shellFoo ⟨none⟩ "a" "b").1 =
      Except.error (PyError.transportError "adb pull failed") ∧
    (get_value pullParseFail shellFoo ⟨none⟩ "a" "b").2.1 =
      DeviceFlags.mk (some [("sample/pkg.flag", enabledROFlag)]) ∧
    (get_value pullParseFail shellFoo
        ((get_value pullParseFail shellFoo ⟨none⟩ "a" "b").2.1)
        "c" "d").2.2.1 = 0 := by
  have h := C5_partial_index_retained pullParseFail shellFoo docsFail
    ["product"] ["system_ext", "vendor"] "system"
    (PyError.transportError "adb pull failed") "a" "b" rfl
    (by intro q hq; rw [List.mem_singleton] at hq; subst hq; rfl) rfl
  exact ⟨h.1, h.2.1.trans (by decide), h.2.2 "c" "d"⟩

/-- C6: when every partition document parses, the loaded index maps a key
to the last record with that full name in partition order
(`product`, `system`, `system_ext`, `vendor`) — the record from the later
partition wins on a key collision. -/
theorem C6_later_partition_wins
    (pullParse : String → Except PyError (List ParsedFlag))
    (lp ls lse lv : List ParsedFlag) (k : String)
    (hp : pullParse "product" = Except.ok lp)
    (hs : pullParse "system" = Except.ok ls)
    (hx : pullParse "system_ext" = Except.ok lse)
    (hv : pullParse "vendor" = Except.ok lv) :
    dictGet (_load_aconfig_flags pullParse).2.1 k =
      (lp ++ ls ++ lse ++ lv).reverse.find?
        (fun flag => full_name flag == k) := by
  have hd : (_load_aconfig_flags pullParse).2.1 =
      (lp ++ ls ++ lse ++ lv).map (fun flag => (full_name flag, flag)) := by
    simp [_load_aconfig_flags, _ACONFIG_PARTITIONS, _load_aconfig_flags_loop,
      hp, hs, hx, hv, List.map_append, List.append_assoc]
  rw [hd]
  unfold dictGet
  rw [← List.map_reverse, List.find?_map, Option.map_map]
  have e2 : ((fun (p : String × ParsedFlag) => p.1 == k) ∘
      fun flag => (full_name flag, flag)) =
      (fun flag => full_name flag == k) := rfl
  rw [e2]
  cases List.find? (fun flag => full_name flag == k)
      (lp ++ ls ++ lse ++ lv).reverse <;> rfl

/-- Witness for C6: the same full name defined `DISABLED` in `product` and
`ENABLED` in `vendor`; the effective entry is the `vendor` one. -/
theorem C6_witness :
    dictGet (_load_aconfig_flags ppLWW).2.1 "sample/pkg.flag" =
      some enabledROFlag := by
  have h := C6_later_partition_wins ppLWW [disabledROFlag] [] []
    [enabledROFlag] "sample/pkg.flag" rfl rfl rfl rfl
  exact h.trans (by decide)

/-- Once a session holds a loaded index, `runQueries` never loads again. -/
theorem runQueries_loaded
    (pullParse : String → Except PyError (List ParsedFlag))
    (shell : String → String → String) (qs : List (String × String)) :
    ∀ d : FlagDict, (runQueries pullParse shell ⟨some d⟩ qs).2 = 0 := by
  induction qs with
  | nil => intro d; rfl
  | cons q qs ih =>
    intro d
    simp [runQueries, get_value_loaded, ih]

/-- C7: the snapshot fetch runs at most once per session. Across any
sequence of `get_value` calls starting from a fresh session, the total
number of `_load_aconfig_flags` invocations is at most one; and any call on
a session whose cache is populated performs no load, keeps the state, and
answers from the cached index. -/
theorem C7_load_at_most_once
    (pullParse : String → Except PyError (List ParsedFlag))
    (shell : String → String → String) :
    (∀ qs : List (String × String),
      (runQueries pullParse shell ⟨none⟩ qs).2 ≤ 1) ∧
    (∀ (d : FlagDict) (nspace name : String),
      get_value pullParse shell ⟨some d⟩ nspace name =
        (Except.ok (get_value_with_flags (dictGet d) shell nspace name).1,
          ⟨some d⟩, 0,
          (get_value_with_flags (dictGet d) shell nspace name).2)) := by
  constructor
  · intro qs
    cases qs with
    | nil => simp [runQueries]
    | cons q qs =>
      obtain ⟨d, hstate, hcount⟩ :=
        get_value_fresh pullParse shell q.1 q.2
      simp [runQueries, hstate, hcount, runQueries_loaded]
  · intro d nspace name
    exact get_value_loaded pullParse shell d nspace name

/-- Witness for C7: two queries on a fresh session load once in total; a
query on a loaded session loads zero times. -/
theorem C7_witness :
    (runQueries pullParseEmpty shellNull ⟨none⟩
      [("sample", "flag"), ("other", "flag")]).2 ≤ 1 ∧
    get_value pullParseEmpty shellNull ⟨some []⟩ "sample" "flag" =
      (Except.ok none, ⟨some []⟩, 0, 1) :=
  ⟨(C7_load_at_most_once pullParseEmpty shellNull).1
      [("sample", "flag"), ("other", "flag")],
   (C7_load_at_most_once pullParseEmpty shellNull).2 [] "sample" "flag"⟩

/-- C8: when `get_value` resolves to a string `v`, `get_bool` returns
`true` exactly when `v` lower-cases to `"true"`, `false` exactly when `v`
lower-cases to `"false"`, and for any other string raises the `ValueError`
whose message names the namespace, the name and the offending value — no
other truthy/falsy conversion. -/
theorem C8_strict_bool_coercion
    (flags : String → Option ParsedFlag) (shell : String → String → String)
    (nspace name v : String)
    (h : (get_value_with_flags flags shell nspace name).1 = some v) :
    ((get_bool_with_flags flags shell nspace name).1 = Except.ok true ↔
      pyLower v = "true") ∧
    ((get_bool_with_flags flags shell nspace name).1 = Except.ok false ↔
      pyLower v = "false") ∧
    (pyLower v ≠ "true" → pyLower v ≠ "false" →
      (get_bool_with_flags flags shell nspace name).1 =
        Except.error (PyError.valueError
          ("Flag " ++ nspace ++ "/" ++ name ++ " is not a boolean (value: "
            ++ v ++ ")."))) := by
  rcases hg : get_value_with_flags flags shell nspace name with ⟨val, n⟩
  rw [hg] at h
  simp only at h
  subst h
  by_cases ht : pyLower v = "true" <;> by_cases hf : pyLower v = "false" <;>
    simp [get_bool_with_flags, hg, ht, hf]

/-- Witness for C8: the live value `TRUE` coerces to `true`
case-insensitively. -/
theorem C8_witness :
    (get_bool_with_flags emptyFlags shellTRUE "sample" "flag").1 =
      Except.ok true :=
  (C8_strict_bool_coercion emptyFlags shellTRUE "sample" "flag" "TRUE"
    (by decide)).1.mpr (by decide)

/-- The partition loop of `_load_aconfig_flags` emits only pull events: it
neither releases nor re-acquires the temporary directory. -/
theorem loop_trace_count (pullParse : String → Except PyError (List ParsedFlag))
    (ev : Event) (hev : ∀ p, ev ≠ Event.pullPartition p) :
    ∀ (ps : List String) (acc : FlagDict) (tr : List Event),
      ((_load_aconfig_flags_loop pullParse ps acc tr).2.2).count ev =
        tr.count ev := by
  intro ps
  induction ps with
  | nil => intro acc tr; rfl
  | cons p ps ih =>
    intro acc tr
    have hne : (Event.pullPartition p == ev) = false := by
      cases hb : Event.pullPartition p == ev
      · rfl
      · exact absurd (eq_of_beq hb).symm (hev p)
    cases hpp : pullParse p with
    | error e =>
      simp [_load_aconfig_flags_loop, hpp, List.count_append,
        List.count_cons, hne]
    | ok doc =>
      simp [_load_aconfig_flags_loop, hpp, ih, List.count_append,
        List.count_cons, hne]

/-- C9: for every device behavior — all partitions succeeding or any
partition failing to pull or parse — the temporary-directory trace of
`_load_aconfig_flags` starts with exactly one acquisition and ends with
exactly one release: the scratch storage is released on every path out of
the load. -/
theorem C9_tmp_dir_released_on_every_path
    (pullParse : String → Except PyError (List ParsedFlag)) :
    ((_load_aconfig_flags pullParse).2.2).head? = some Event.acquireTmpDir ∧
    ((_load_aconfig_flags pullParse).2.2).getLast? =
      some Event.releaseTmpDir ∧
    ((_load_aconfig_flags pullParse).2.2).count Event.releaseTmpDir = 1 ∧
    ((_load_aconfig_flags pullParse).2.2).count Event.acquireTmpDir = 1 := by
  have hrel := loop_trace_count pullParse Event.releaseTmpDir
    (fun p => by exact fun h => Event.noConfusion h)
    _ACONFIG_PARTITIONS [] []
  have hacq := loop_trace_count pullParse Event.acquireTmpDir
    (fun p => by exact fun h => Event.noConfusion h)
    _ACONFIG_PARTITIONS [] []
  refine ⟨rfl, ?_, ?_, ?_⟩
  · show ((Event.acquireTmpDir ::
        (_load_aconfig_flags_loop pullParse _ACONFIG_PARTITIONS [] []).2.2) ++
        [Event.releaseTmpDir]).getLast? = some Event.releaseTmpDir
    exact List.getLast?_concat _
  · simp [_load_aconfig_flags, List.count_append, List.count_cons, hrel]
  · simp [_load_aconfig_flags, List.count_append, List.count_cons, hacq]

/-- Witness for C4: the error raised on the absent flag is not the
`ValueError` carrying the `Flag sample/flag is not a boolean` message. -/
theorem C4_witness :
    (get_bool pullParseEmpty shellNull ⟨none⟩ "sample" "flag").1 ≠
      Except.error (PyError.valueError
        "Flag sample/flag is not a boolean (value: None).") :=
  C4_absent_raises_attribute_error.2
    "Flag sample/flag is not a boolean (value: None)."
